import Mathlib

/-!
Shallow embedding of the stop-loss guard module
(`app/services/stop_loss_guard.py` of the binance-futures-bot repository).

Prices, quantities and percentages are embedded as rationals (`ℚ`); the
Python source uses floats, but every claim under study is about the exact
arithmetic the source spells out.  Exchange-side collaborators that are not
part of the repository snapshot (`binance_api.format_price`,
`format_quantity`) are abstracted as function parameters `fmt : ℚ → ℚ`.
-/

namespace StopLossGuard

/-- Position direction, the `side` string of the source (`"LONG"`/`"SHORT"`). -/
inductive Side
  | LONG
  | SHORT
deriving DecidableEq, Repr

/-- One ladder level of the trailing-stop configuration (the
`level_1`/`level_2`/`level_3` dictionaries).  The `partial_close_percent`
entry of the default level-3 dictionary is never read by the guard and is
omitted. -/
structure LevelCfg where
  profit_min : ℚ
  profit_max : Option ℚ
  lock_profit : ℚ
  trailing_enabled : Bool
  trailing_percent : ℚ
deriving DecidableEq, Repr

/-- The three-level ladder configuration (`self._config`). -/
structure TrailingConfig where
  level_1 : LevelCfg
  level_2 : LevelCfg
  level_3 : LevelCfg
deriving DecidableEq, Repr

/-- The constant `DEFAULT_TRAILING_CONFIG` from the source (lines 22–26). -/
def DEFAULT_TRAILING_CONFIG : TrailingConfig :=
  { level_1 := { profit_min := 1.8, profit_max := some 2.5, lock_profit := 0.1,
                 trailing_enabled := false, trailing_percent := 0 }
  , level_2 := { profit_min := 2.5, profit_max := some 4.0, lock_profit := 1.9,
                 trailing_enabled := false, trailing_percent := 0 }
  , level_3 := { profit_min := 4.0, profit_max := none, lock_profit := 1.9,
                 trailing_enabled := true, trailing_percent := 1.5 } }

/-- Embedding of `StopLossGuard._calculate_profit_percent`: signed percentage move of the
current price from the entry price, favourable direction positive. -/
def calculate_profit_percent (entry_price current_price : ℚ) (side : Side) : ℚ :=
  match side with
  | .LONG => (current_price - entry_price) / entry_price * 100
  | .SHORT => (entry_price - current_price) / entry_price * 100

/-- The excursion update performed at the top of
`_calculate_stop_loss_price` (lines 159–167): the `self._highest_prices`
entry for the symbol after seeing `current_price`.  `prev` is the entry
before the call (`none` when the symbol is not in the dictionary). -/
def update_highest (side : Side) (prev : Option ℚ) (current_price : ℚ) : ℚ :=
  match prev with
  | none => current_price
  | some h =>
    match side with
    | .LONG => if h < current_price then current_price else h
    | .SHORT => if current_price < h then current_price else h

/-- Python upper-bound fallback `(l1_max or float("inf"))` of the range tests.
`none` stands for infinity; a stored bound of `0` is falsy in Python and also
falls back to infinity. -/
def py_upper (pm : Option ℚ) : Option ℚ :=
  match pm with
  | none => none
  | some m => if m = 0 then none else some m

/-- The range test `l_min <= profit_percent < (l_max or float("inf"))`. -/
def in_level (profit pmin : ℚ) (pmax : Option ℚ) : Bool :=
  decide (pmin ≤ profit) &&
    (match py_upper pmax with
     | none => true
     | some m => decide (profit < m))

/-- The lock-profit target `entry_price * (1 ± lock/100)`, sign per side. -/
def lock_target (side : Side) (entry_price lock : ℚ) : ℚ :=
  match side with
  | .LONG => entry_price * (1 + lock / 100)
  | .SHORT => entry_price * (1 - lock / 100)

/-- Embedding of `StopLossGuard._calculate_stop_loss_price` (lines 143–242).

State is made explicit: `prev_highest` is the entry for the symbol in
`self._highest_prices` before the call (the function body updates it first,
see `update_highest`).  Returns `some target` when the source assigns
`new_stop_price`, `none` when the source returns `None`. -/
def calculate_stop_loss_price (cfg : TrailingConfig) (side : Side)
    (entry_price current_price : ℚ) (current_stop_price : Option ℚ)
    (prev_highest : Option ℚ) : Option ℚ :=
  let profit_percent := calculate_profit_percent entry_price current_price side
  let highest := update_highest side prev_highest current_price
  if in_level profit_percent cfg.level_1.profit_min cfg.level_1.profit_max then
    -- 级别1: 保本止损
    if cfg.level_1.lock_profit = 0 then
      some entry_price
    else
      some (lock_target side entry_price cfg.level_1.lock_profit)
  else if in_level profit_percent cfg.level_2.profit_min cfg.level_2.profit_max then
    -- 级别2: 锁定利润
    some (lock_target side entry_price cfg.level_2.lock_profit)
  else if cfg.level_3.profit_min ≤ profit_percent then
    -- 级别3: 追踪止损
    if cfg.level_3.trailing_enabled then
      match side with
      | .LONG =>
        let trailing_stop := highest * (1 - cfg.level_3.trailing_percent / 100)
        let base_stop := entry_price * (1 + cfg.level_3.lock_profit / 100)
        let calculated_stop := max trailing_stop base_stop
        match current_stop_price with
        | none => some calculated_stop
        | some c => if c < calculated_stop then some calculated_stop else none
      | .SHORT =>
        let trailing_stop := highest * (1 + cfg.level_3.trailing_percent / 100)
        let base_stop := entry_price * (1 - cfg.level_3.lock_profit / 100)
        let calculated_stop := min trailing_stop base_stop
        match current_stop_price with
        | none => some calculated_stop
        | some c => if calculated_stop < c then some calculated_stop else none
    else
      some (lock_target side entry_price cfg.level_3.lock_profit)
  else
    none

/-- Embedding of `StopLossGuard._calculate_initial_stop_loss_price` (lines 117–141):
fixed −2 % offset from the entry price, direction per side. -/
def calculate_initial_stop_loss_price (side : Side) (entry_price : ℚ) : ℚ :=
  match side with
  | .LONG => entry_price * (1 + (-2 : ℚ) / 100)
  | .SHORT => entry_price * (1 - (-2 : ℚ) / 100)

/-- A live exchange order as the guard reads it: a dictionary with optional
keys.  `otype` stands for the dictionary key `"type"` (plain orders) and
`orderType` for algorithmic orders; `algoId`/`orderId` are the two possible
identifier keys.  Missing keys are `none`. -/
structure ExchOrder where
  symbol : String
  otype : Option String
  orderType : Option String
  oside : String
  quantity : ℚ
  stopPrice : Option ℚ
  triggerPrice : Option ℚ
  algoId : Option String
  orderId : Option String
deriving DecidableEq, Repr

/-- Python `a or b` on two optional strings, with the empty string falsy
(used for `order.get("algoId") or order.get("orderId")`). -/
def py_or_str (a b : Option String) : Option String :=
  match a with
  | none => b
  | some s => if s = "" then b else some s

/-- Python truthiness of an optional string (`if order.get("algoId"):`). -/
def py_truthy_str (a : Option String) : Bool :=
  match a with
  | none => false
  | some s => decide (s ≠ "")

/-- The stop-type test used three times in the source:
`(o.get("type") or o.get("orderType")) in ("STOP_MARKET", "STOP",
"STOP_LOSS", "STOP_LOSS_LIMIT")`. -/
def is_stop_type (o : ExchOrder) : Bool :=
  match py_or_str o.otype o.orderType with
  | none => false
  | some t => decide (t = "STOP_MARKET" ∨ t = "STOP" ∨ t = "STOP_LOSS" ∨ t = "STOP_LOSS_LIMIT")

/-- Embedding of `float(o.get("stopPrice") or o.get("triggerPrice", 0))` (line 334):
the stop price read from the first live stop order, with Python numeric
truthiness (a stored `0` is falsy). -/
def order_stop_price (o : ExchOrder) : ℚ :=
  match o.stopPrice with
  | none => o.triggerPrice.getD 0
  | some p => if p = 0 then o.triggerPrice.getD 0 else p

/-- A raw position record from the exchange (`position_data` of the source);
numeric fields already converted from their string form. -/
structure RawPosition where
  symbol : String
  positionAmt : ℚ
  entryPrice : ℚ
  leverage : ℚ
  unRealizedProfit : ℚ
  markPrice : ℚ
deriving DecidableEq, Repr

/-- The dictionary `_parse_position_data` returns. -/
structure ParsedPosition where
  symbol : String
  side : Side
  entry_price : ℚ
  quantity : ℚ
  leverage : ℤ
  unrealized_pnl : ℚ
  mark_price : ℚ
deriving DecidableEq, Repr

/-- Python `int(float(x))`: truncation toward zero. -/
def py_int (q : ℚ) : ℤ :=
  if 0 ≤ q then ⌊q⌋ else ⌈q⌉

/-- Embedding of `StopLossGuard._parse_position_data` (lines 71–107). -/
def parse_position_data (p : RawPosition) : ParsedPosition :=
  { symbol := p.symbol
  , side := if 0 < p.positionAmt then .LONG else .SHORT
  , entry_price := p.entryPrice
  , quantity := |p.positionAmt|
  , leverage := py_int p.leverage
  , unrealized_pnl := p.unRealizedProfit
  , mark_price := p.markPrice }

/-- One exchange command issued by the guard. -/
inductive Cmd
  | cancelAlgo (symbol : String) (id : String)
  | cancelOrder (symbol : String) (id : String)
  | place (symbol : String) (oside : String) (quantity stop_price : ℚ)
deriving DecidableEq, Repr

/-- The cancellation dispatch of the source (`algoId` present → cancel the
algorithmic order, otherwise cancel the plain order; `str(None)` is the
string `"None"`). -/
def cancel_cmd (o : ExchOrder) : Cmd :=
  let oid := (py_or_str o.algoId o.orderId).getD "None"
  if py_truthy_str o.algoId then .cancelAlgo o.symbol oid else .cancelOrder o.symbol oid

/-- Embedding of `StopLossGuard._adjust_stop_loss` (lines 244–302) as the sequence of
exchange commands it attempts, given the open orders fetched for the symbol.

`cancel_fails` marks which individual cancel attempts raise.  In the source
each cancel sits in its own `try`/`except` whose handler only logs a
warning, so a cancel failure has no effect on the remaining control flow:
the cancel of every order is attempted and the new stop order is then placed
unconditionally.  `fmtP`/`fmtQ` abstract `binance_api.format_price` and
`format_quantity`. -/
def adjust_stop_loss_trace (cancel_fails : ExchOrder → Bool) (symbol : String)
    (side : Side) (quantity stop_price : ℚ) (fmtP fmtQ : ℚ → ℚ)
    (open_orders : List ExchOrder) : List Cmd :=
  let _ := cancel_fails
  open_orders.map cancel_cmd ++
    [.place symbol (if side = .LONG then "SELL" else "BUY") (fmtQ quantity) (fmtP stop_price)]

/-- The decision logic of `StopLossGuard._process_position` (lines 304–392):
the stop price handed to `_adjust_stop_loss`, or `none` when no exchange
command is issued for the symbol this cycle.

`open_orders` is what `get_open_orders(symbol)` returned; the source filters
it for stop-typed orders, reads the stop price of the first one, and branches on
whether any exists.  `fmt` abstracts `binance_api.format_price`. -/
def process_position_decision (cfg : TrailingConfig) (fmt : ℚ → ℚ)
    (raw : RawPosition) (open_orders : List ExchOrder)
    (prev_highest : Option ℚ) : Option ℚ :=
  let pos := parse_position_data raw
  let stop_orders := open_orders.filter is_stop_type
  match stop_orders with
  | o :: _ =>
    -- 已经有止损单: adjust per the dynamic strategy
    let c := order_stop_price o
    match calculate_stop_loss_price cfg pos.side pos.entry_price pos.mark_price (some c)
        prev_highest with
    | none => none
    | some n =>
      if fmt c = fmt n then none
      else
        match pos.side with
        | .LONG => if n ≤ c then none else some n
        | .SHORT => if c ≤ n then none else some n
  | [] =>
    -- 没有止损单: create one, dynamic target first, initial stop as fallback
    match calculate_stop_loss_price cfg pos.side pos.entry_price pos.mark_price none
        prev_highest with
    | some n => some n
    | none => some (calculate_initial_stop_loss_price pos.side pos.entry_price)

/-- Embedding of `StopLossGuard._cleanup_orphan_orders` (lines 397–429): the set of
orders the sweep attempts to cancel, namely the stop-typed orders whose
symbol is not among the symbols of the open positions. -/
def cleanup_orphan_cancel_targets (positions : List RawPosition)
    (all_orders : List ExchOrder) : List ExchOrder :=
  let position_symbols := positions.map (·.symbol)
  (all_orders.filter is_stop_type).filter (fun o => !position_symbols.contains o.symbol)

/-- Lookup in the `self._highest_prices` dictionary, modelled as an
association list. -/
def hm_lookup (m : List (String × ℚ)) (s : String) : Option ℚ :=
  (m.find? (fun e => e.1 == s)).map (·.2)

/-- Dictionary assignment `self._highest_prices[symbol] = v`. -/
def hm_insert (m : List (String × ℚ)) (s : String) (v : ℚ) : List (String × ℚ) :=
  match m with
  | [] => [(s, v)]
  | (k, w) :: rest => if k = s then (s, v) :: rest else (k, w) :: hm_insert rest s v

/-- The excursion-map update of `_calculate_stop_loss_price` (lines
159–167), acting on the whole dictionary. -/
def update_highest_map (m : List (String × ℚ)) (side : Side) (symbol : String)
    (current_price : ℚ) : List (String × ℚ) :=
  match hm_lookup m symbol, side with
  | none, _ => hm_insert m symbol current_price
  | some h, .LONG => if h < current_price then hm_insert m symbol current_price else m
  | some h, .SHORT => if current_price < h then hm_insert m symbol current_price else m

/-- The effect of one `_check_loop` iteration (lines 436–477) on
`self._highest_prices`: with no positions the dictionary is cleared
(line 458); otherwise `_process_position` runs for every position and each
run updates the entry of the symbol of that position via
`_calculate_stop_loss_price`. -/
def check_loop_highest_step (m : List (String × ℚ)) (positions : List RawPosition) :
    List (String × ℚ) :=
  match positions with
  | [] => []
  | _ :: _ =>
    positions.foldl
      (fun acc p =>
        let pos := parse_position_data p
        update_highest_map acc pos.side pos.symbol pos.mark_price) m

/-- Embedding of `StopLossGuard.set_check_interval` (lines 506–509): the new value of
`self._check_interval` after the call. -/
def set_check_interval (interval : ℤ) : ℤ :=
  max 10 interval

/-- Outcome of the database query in `load_config`: the access raised, the
`TRAILING_STOP_CONFIG` row is absent, or the row is present with its
(optional) stored value. -/
inductive DbResult
  | dbError
  | noRow
  | row (value : Option String)
deriving DecidableEq, Repr

/-- Embedding of `StopLossGuard.load_config` (lines 46–69): the value of `self._config`
after the call.  `parse` abstracts `json.loads` restricted to values that
decode to a ladder configuration (`none` = `JSONDecodeError`).  Every branch
of the source assigns `self._config` and returns normally; the function is
total by construction. -/
def load_config (parse : String → Option TrailingConfig) (db : DbResult) : TrailingConfig :=
  match db with
  | .dbError => DEFAULT_TRAILING_CONFIG
  | .noRow => DEFAULT_TRAILING_CONFIG
  | .row none => DEFAULT_TRAILING_CONFIG
  | .row (some v) =>
    if v = "" then DEFAULT_TRAILING_CONFIG
    else
      match parse v with
      | some cfg => cfg
      | none => DEFAULT_TRAILING_CONFIG

/-- A live protective stop order used as concrete input. -/
def sample_stop_order : ExchOrder :=
  { symbol := "BTCUSDT", otype := some "STOP_MARKET", orderType := none, oside := "SELL",
    quantity := 1, stopPrice := some 100, triggerPrice := none, algoId := none,
    orderId := some "5" }

/-- A live limit (entry) order on the same symbol, not a protective stop. -/
def sample_limit_order : ExchOrder :=
  { symbol := "BTCUSDT", otype := some "LIMIT", orderType := none, oside := "BUY",
    quantity := 2, stopPrice := none, triggerPrice := none, algoId := none,
    orderId := some "7" }

/-- A live stop order whose side and quantity both disagree with a LONG
position of quantity 1 (close direction should be SELL; 999 is far outside a
1 % tolerance of 1). -/
def mismatched_stop_order : ExchOrder :=
  { symbol := "BTCUSDT", otype := some "STOP_MARKET", orderType := none, oside := "BUY",
    quantity := 999, stopPrice := some 100.1, triggerPrice := none, algoId := none,
    orderId := some "9" }

/-- A LONG position on BTCUSDT: entry 100, mark price 102 (profit 2 %). -/
def sample_long_position : RawPosition :=
  { symbol := "BTCUSDT", positionAmt := 1, entryPrice := 100, leverage := 1,
    unRealizedProfit := 2, markPrice := 102 }

/-- An open position on a second symbol, used for the excursion-lifetime
counterexample. -/
def other_symbol_position : RawPosition :=
  { symbol := "ETHUSDT", positionAmt := 1, entryPrice := 10, leverage := 1,
    unRealizedProfit := 0, markPrice := 10 }

/-- A raw record with `positionAmt = 0`. -/
def flat_position : RawPosition :=
  { symbol := "XRPUSDT", positionAmt := 0, entryPrice := 3, leverage := 1,
    unRealizedProfit := 0, markPrice := 3 }

/-! ### Shared lemmas about the excursion dictionary -/

theorem hm_lookup_insert_ne (m : List (String × ℚ)) (k s : String) (v : ℚ)
    (h : k ≠ s) : hm_lookup (hm_insert m k v) s = hm_lookup m s := by
  have hks : (k == s) = false := by simp [beq_iff_eq, h]
  induction m with
  | nil => simp [hm_insert, hm_lookup, List.find?, hks]
  | cons e rest ih =>
    obtain ⟨k', w⟩ := e
    simp only [hm_insert]
    by_cases hk : k' = k
    · subst hk
      simp [hm_lookup, List.find?, hks]
    · simp only [if_neg hk]
      by_cases hs : k' = s
      · subst hs
        simp [hm_lookup, List.find?]
      · have hbs : (k' == s) = false := by simp [beq_iff_eq, hs]
        simp only [hm_lookup, List.find?, hbs] at ih ⊢
        exact ih

theorem hm_lookup_update_highest_map_ne (m : List (String × ℚ)) (side : Side)
    (sym s : String) (cur : ℚ) (h : sym ≠ s) :
    hm_lookup (update_highest_map m side sym cur) s = hm_lookup m s := by
  unfold update_highest_map
  cases hl : hm_lookup m sym with
  | none => exact hm_lookup_insert_ne m sym s cur h
  | some hprev =>
    cases side with
    | LONG =>
      by_cases hc : hprev < cur
      · simp [hc, hm_lookup_insert_ne m sym s cur h]
      · simp [hc]
    | SHORT =>
      by_cases hc : cur < hprev
      · simp [hc, hm_lookup_insert_ne m sym s cur h]
      · simp [hc]

theorem hm_lookup_foldl_ne (ps : List RawPosition) (m : List (String × ℚ)) (s : String)
    (h : ∀ p ∈ ps, p.symbol ≠ s) :
    hm_lookup
      (ps.foldl (fun acc p =>
        let pos := parse_position_data p
        update_highest_map acc pos.side pos.symbol pos.mark_price) m) s
      = hm_lookup m s := by
  induction ps generalizing m with
  | nil => rfl
  | cons p rest ih =>
    simp only [List.foldl_cons]
    rw [ih _ (fun q hq => h q (List.mem_cons_of_mem p hq))]
    exact hm_lookup_update_highest_map_ne m _ _ s _ (h p (List.mem_cons_self p rest))

/-! ### Claims -/

/-- C6: the orphan sweep attempts to cancel exactly the stop-typed live
orders whose symbol has no open position; orders of open-position symbols
and non-stop-typed orders are never cancelled by the sweep. -/
theorem c6_orphan_sweep_exact (positions : List RawPosition)
    (all_orders : List ExchOrder) (o : ExchOrder) :
    o ∈ cleanup_orphan_cancel_targets positions all_orders ↔
      o ∈ all_orders ∧ is_stop_type o = true ∧
        (positions.map (fun p => p.symbol)).contains o.symbol = false := by
  simp only [cleanup_orphan_cancel_targets, List.mem_filter, Bool.not_eq_true',
    and_assoc]

/-- C8 counterexample: `set_check_interval 1000` stores 1000, not 300: the
source only applies the lower clamp `max(10, interval)`, so the claimed
upper bound of 300 is violated. -/
theorem c8_counterexample :
    set_check_interval 1000 = 1000 ∧ ¬ set_check_interval 1000 ≤ 300 := by
  constructor
  · decide
  · decide

/-- C8 (amended): after `set_check_interval(n)` the interval is at least 10
— values below 10 are raised to 10 and values of at least 10 are stored
unchanged; no upper clamp is applied. -/
theorem c8_lower_clamp_only (n : ℤ) :
    10 ≤ set_check_interval n ∧ (10 ≤ n → set_check_interval n = n) ∧
      (n < 10 → set_check_interval n = 10) := by
  unfold set_check_interval
  refine ⟨le_max_left _ _, fun h => max_eq_right h, fun h => max_eq_left (le_of_lt h)⟩

/-- C8 witness: the amended statement applied at 1000 and at 5. -/
theorem c8_witness :
    set_check_interval 1000 = 1000 ∧ set_check_interval 5 = 10 :=
  ⟨(c8_lower_clamp_only 1000).2.1 (by decide), (c8_lower_clamp_only 5).2.2 (by decide)⟩

/-- C9: whatever way loading the ladder configuration fails — the database
access raises, the stored row is absent, the row has no value, or the value
fails JSON parsing — `load_config` leaves the configuration equal to the
built-in default ladder (and it is a total function, so it returns
normally). -/
theorem c9_load_config_defaults (parse : String → Option TrailingConfig) :
    load_config parse .dbError = DEFAULT_TRAILING_CONFIG ∧
    load_config parse .noRow = DEFAULT_TRAILING_CONFIG ∧
    load_config parse (.row none) = DEFAULT_TRAILING_CONFIG ∧
    (∀ v, parse v = none → load_config parse (.row (some v)) = DEFAULT_TRAILING_CONFIG) := by
  refine ⟨rfl, rfl, rfl, fun v hv => ?_⟩
  unfold load_config
  by_cases he : v = ""
  · simp [he]
  · simp [he, hv]

/-- C9 witness: the theorem applied to a parse function that always fails. -/
theorem c9_witness :
    load_config (fun _ => none) (.row (some "not json")) = DEFAULT_TRAILING_CONFIG :=
  (c9_load_config_defaults (fun _ => none)).2.2.2 "not json" rfl

/-- C10: `_parse_position_data` returns the absolute value of `positionAmt`
as the quantity and classifies the side as LONG exactly when `positionAmt`
is strictly positive; a record with `positionAmt = 0` is classified SHORT
with quantity 0. -/
theorem c10_parse_position (p : RawPosition) :
    (parse_position_data p).quantity = |p.positionAmt| ∧
    ((parse_position_data p).side = .LONG ↔ 0 < p.positionAmt) ∧
    (p.positionAmt = 0 →
      (parse_position_data p).side = .SHORT ∧ (parse_position_data p).quantity = 0) := by
  refine ⟨rfl, ?_, fun h0 => ?_⟩
  · unfold parse_position_data
    by_cases h : 0 < p.positionAmt
    · simp [h]
    · simp [h]
  · unfold parse_position_data
    simp [h0]

/-- C5 counterexample: with an open position remaining on ETHUSDT and none
on AAAUSDT, one loop iteration leaves the stale AAAUSDT excursion record in
place — the dictionary is only cleared when no position at all is open. -/
theorem c5_counterexample :
    hm_lookup (check_loop_highest_step [("AAAUSDT", 105)] [other_symbol_position])
        "AAAUSDT" = some 105 ∧
      ([other_symbol_position].map (fun p => p.symbol)).contains "AAAUSDT" = false := by
  constructor
  · rfl
  · rfl

/-- C5 (amended): the excursion dictionary is cleared only when the
exchange reports no open positions at all; when at least one position
remains open, the entry of every symbol without an open position persists
unchanged through the loop iteration. -/
theorem c5_excursion_cleared_only_when_no_positions :
    (∀ m, check_loop_highest_step m [] = []) ∧
    (∀ (m : List (String × ℚ)) (ps : List RawPosition) (s : String),
      ps ≠ [] → (∀ p ∈ ps, p.symbol ≠ s) →
      hm_lookup (check_loop_highest_step m ps) s = hm_lookup m s) := by
  constructor
  · intro m
    rfl
  · intro m ps s hne h
    cases ps with
    | nil => exact absurd rfl hne
    | cons p rest =>
      unfold check_loop_highest_step
      exact hm_lookup_foldl_ne (p :: rest) m s h

/-- C5 witness: the amended statement applied to the concrete stale entry. -/
theorem c5_witness :
    check_loop_highest_step [("AAAUSDT", 105)] [] = [] ∧
      hm_lookup (check_loop_highest_step [("AAAUSDT", 105)] [other_symbol_position])
        "AAAUSDT" = hm_lookup [("AAAUSDT", 105)] "AAAUSDT" :=
  ⟨c5_excursion_cleared_only_when_no_positions.1 [("AAAUSDT", 105)],
   c5_excursion_cleared_only_when_no_positions.2 [("AAAUSDT", 105)]
     [other_symbol_position] "AAAUSDT" (by simp)
     (by intro p hp; simp only [List.mem_singleton] at hp; subst hp; decide)⟩

/-- C1 counterexample: with a current stop of 101.9 on a LONG (entry 100)
whose price has fallen back to 102 (profit 2 %, ladder level 1), the
evaluator returns the level-1 target 100.1 even though it is strictly
*below* the current stop: levels 1 and 2 apply no ratchet comparison inside
`_calculate_stop_loss_price`. -/
theorem c1_counterexample :
    calculate_stop_loss_price DEFAULT_TRAILING_CONFIG .LONG 100 102 (some 101.9) none
        = some 100.1 ∧ ¬ ((101.9 : ℚ) < 100.1) := by
  constructor
  · norm_num [calculate_stop_loss_price, calculate_profit_percent, update_highest, in_level,
      py_upper, lock_target, DEFAULT_TRAILING_CONFIG, max_def, min_def]
  · norm_num

/-- C1 (amended): the strictly-more-protective comparison against the
current stop price happens inside `_calculate_stop_loss_price` only in the
level-3 branch with trailing enabled: there, with a current stop present,
a target is returned only when it is strictly higher (LONG) or strictly
lower (SHORT) than the current stop, and `None` otherwise.  At levels 1 and
2 (and at level 3 without trailing) the computed lock target is returned
regardless of the current stop; the non-weakening filter for emitted orders
is applied afterwards by `_process_position`. -/
theorem c1_level3_trailing_ratchet (cfg : TrailingConfig) (side : Side)
    (entry_price current_price c : ℚ) (prev_highest : Option ℚ) (t : ℚ)
    (h1 : in_level (calculate_profit_percent entry_price current_price side)
        cfg.level_1.profit_min cfg.level_1.profit_max = false)
    (h2 : in_level (calculate_profit_percent entry_price current_price side)
        cfg.level_2.profit_min cfg.level_2.profit_max = false)
    (h3 : cfg.level_3.profit_min ≤ calculate_profit_percent entry_price current_price side)
    (ht : cfg.level_3.trailing_enabled = true)
    (hr : calculate_stop_loss_price cfg side entry_price current_price (some c)
        prev_highest = some t) :
    (side = .LONG → c < t) ∧ (side = .SHORT → t < c) := by
  cases side with
  | LONG =>
    refine ⟨fun _ => ?_, fun hs => Side.noConfusion hs⟩
    simp only [calculate_stop_loss_price, h1, h2, h3, ht, Bool.false_eq_true, if_false,
      if_true] at hr
    split at hr
    · exact lt_of_lt_of_eq (by assumption) (Option.some_inj.mp hr)
    · exact Option.noConfusion hr
  | SHORT =>
    refine ⟨fun hs => Side.noConfusion hs, fun _ => ?_⟩
    simp only [calculate_stop_loss_price, h1, h2, h3, ht, Bool.false_eq_true, if_false,
      if_true] at hr
    split at hr
    · exact lt_of_eq_of_lt (Option.some_inj.mp hr).symm (by assumption)
    · exact Option.noConfusion hr

/-- C1 witness: the amended statement applied on a LONG at level 3 (entry
100, price 105, current stop 103): the returned target 103.425 is strictly
above the current stop. -/
theorem c1_witness :
    calculate_stop_loss_price DEFAULT_TRAILING_CONFIG .LONG 100 105 (some 103) none
        = some 103.425 ∧ (103 : ℚ) < 103.425 := by
  have heval : calculate_stop_loss_price DEFAULT_TRAILING_CONFIG .LONG 100 105 (some 103)
      none = some 103.425 := by
    norm_num [calculate_stop_loss_price, calculate_profit_percent, update_highest, in_level,
      py_upper, lock_target, DEFAULT_TRAILING_CONFIG, max_def, min_def]
  refine ⟨heval, ?_⟩
  exact (c1_level3_trailing_ratchet DEFAULT_TRAILING_CONFIG .LONG 100 105 103 none 103.425
    (by norm_num [in_level, calculate_profit_percent, py_upper, DEFAULT_TRAILING_CONFIG])
    (by norm_num [in_level, calculate_profit_percent, py_upper, DEFAULT_TRAILING_CONFIG])
    (by norm_num [calculate_profit_percent, DEFAULT_TRAILING_CONFIG])
    rfl heval).1 rfl

/-- C3: in the level-3 branch with trailing enabled and no current stop, the
candidate target of the evaluator is, for LONG,
`max(excursion · (1 − trailing_percent/100), entry · (1 + lock_profit/100))`
and, for SHORT,
`min(excursion · (1 + trailing_percent/100), entry · (1 − lock_profit/100))`,
where the excursion is the updated best price. -/
theorem c3_level3_trailing_candidate (cfg : TrailingConfig) (side : Side)
    (entry_price current_price : ℚ) (prev_highest : Option ℚ)
    (h1 : in_level (calculate_profit_percent entry_price current_price side)
        cfg.level_1.profit_min cfg.level_1.profit_max = false)
    (h2 : in_level (calculate_profit_percent entry_price current_price side)
        cfg.level_2.profit_min cfg.level_2.profit_max = false)
    (h3 : cfg.level_3.profit_min ≤ calculate_profit_percent entry_price current_price side)
    (ht : cfg.level_3.trailing_enabled = true) :
    calculate_stop_loss_price cfg side entry_price current_price none prev_highest =
      some (match side with
        | .LONG => max (update_highest side prev_highest current_price *
              (1 - cfg.level_3.trailing_percent / 100))
            (entry_price * (1 + cfg.level_3.lock_profit / 100))
        | .SHORT => min (update_highest side prev_highest current_price *
              (1 + cfg.level_3.trailing_percent / 100))
            (entry_price * (1 - cfg.level_3.lock_profit / 100))) := by
  cases side <;>
    simp only [calculate_stop_loss_price, h1, h2, h3, ht, Bool.false_eq_true, if_false,
      if_true]

/-- C3 witness: the theorem applied on the two concrete scenarios of the spec:
LONG entry 100, excursion 105 → 103.425, and SHORT entry 100, excursion 95
→ 96.425, under the default ladder. -/
theorem c3_witness :
    calculate_stop_loss_price DEFAULT_TRAILING_CONFIG .LONG 100 105 none none
        = some 103.425 ∧
    calculate_stop_loss_price DEFAULT_TRAILING_CONFIG .SHORT 100 95 none none
        = some 96.425 := by
  constructor
  · rw [c3_level3_trailing_candidate DEFAULT_TRAILING_CONFIG .LONG 100 105 none
      (by norm_num [in_level, calculate_profit_percent, py_upper, DEFAULT_TRAILING_CONFIG])
      (by norm_num [in_level, calculate_profit_percent, py_upper, DEFAULT_TRAILING_CONFIG])
      (by norm_num [calculate_profit_percent, DEFAULT_TRAILING_CONFIG]) rfl]
    norm_num [update_highest, DEFAULT_TRAILING_CONFIG, max_def]
  · rw [c3_level3_trailing_candidate DEFAULT_TRAILING_CONFIG .SHORT 100 95 none
      (by norm_num [in_level, calculate_profit_percent, py_upper, DEFAULT_TRAILING_CONFIG])
      (by norm_num [in_level, calculate_profit_percent, py_upper, DEFAULT_TRAILING_CONFIG])
      (by norm_num [calculate_profit_percent, DEFAULT_TRAILING_CONFIG]) rfl]
    norm_num [update_highest, DEFAULT_TRAILING_CONFIG, min_def]

/-- C4 counterexample: for a LONG position (quantity 1) whose single live
stop order has the wrong side (BUY instead of the close-direction SELL) and
a quantity (999) far outside any 1 % tolerance, but whose stop price equals
the target of the evaluator at formatted precision, `_process_position` issues no
exchange command at all: the source never inspects the side or the
quantity of the live order, only its (formatted) stop price. -/
theorem c4_counterexample :
    process_position_decision DEFAULT_TRAILING_CONFIG id sample_long_position
        [mismatched_stop_order] none = none ∧
      mismatched_stop_order.oside ≠ "SELL" ∧
      ¬ (|mismatched_stop_order.quantity - (parse_position_data sample_long_position).quantity|
          ≤ 1 / 100 * (parse_position_data sample_long_position).quantity) := by
  have hfil : List.filter is_stop_type [mismatched_stop_order] = [mismatched_stop_order] :=
    rfl
  have hosp : order_stop_price mismatched_stop_order = 100.1 := by
    norm_num [order_stop_price, mismatched_stop_order]
  have hside : (parse_position_data sample_long_position).side = .LONG := rfl
  have hentry : (parse_position_data sample_long_position).entry_price = 100 := rfl
  have hmark : (parse_position_data sample_long_position).mark_price = 102 := rfl
  have hcalc : calculate_stop_loss_price DEFAULT_TRAILING_CONFIG .LONG 100 102
      (some 100.1) none = some 100.1 := by
    norm_num [calculate_stop_loss_price, calculate_profit_percent, update_highest, in_level,
      py_upper, lock_target, DEFAULT_TRAILING_CONFIG, max_def, min_def]
  refine ⟨?_, by decide, ?_⟩
  · simp only [process_position_decision, hfil, hosp, hside, hentry, hmark, hcalc, id_eq,
      if_true, if_pos rfl]
  · norm_num [mismatched_stop_order, sample_long_position, parse_position_data, abs,
      max_def]

/-- C4 (amended): with exactly one live protective-stop-typed order, the
reconciler replaces it (cancel then re-place at target `n`) exactly when the
evaluator, given the stop price of the live order as the current stop, returns a
target `n` whose formatted price differs from the formatted current stop and
which is strictly more protective (higher for LONG, lower for SHORT);
otherwise no exchange command is issued.  The side and quantity of the live order
are never consulted. -/
theorem c4_replace_decision_characterization (cfg : TrailingConfig) (fmt : ℚ → ℚ)
    (raw : RawPosition) (open_orders : List ExchOrder) (prev_highest : Option ℚ)
    (o : ExchOrder) (hfil : open_orders.filter is_stop_type = [o]) (n : ℚ) :
    process_position_decision cfg fmt raw open_orders prev_highest = some n ↔
      (calculate_stop_loss_price cfg (parse_position_data raw).side
          (parse_position_data raw).entry_price (parse_position_data raw).mark_price
          (some (order_stop_price o)) prev_highest = some n ∧
        fmt (order_stop_price o) ≠ fmt n ∧
        ((parse_position_data raw).side = .LONG → order_stop_price o < n) ∧
        ((parse_position_data raw).side = .SHORT → n < order_stop_price o)) := by
  simp only [process_position_decision, hfil]
  cases hcalc : calculate_stop_loss_price cfg (parse_position_data raw).side
      (parse_position_data raw).entry_price (parse_position_data raw).mark_price
      (some (order_stop_price o)) prev_highest with
  | none => simp
  | some m =>
    by_cases hf : fmt (order_stop_price o) = fmt m
    · simp only [if_pos hf]
      constructor
      · intro h
        exact Option.noConfusion h
      · rintro ⟨hmn, hfn, -, -⟩
        obtain rfl : m = n := Option.some_inj.mp hmn
        exact absurd hf hfn
    · simp only [if_neg hf]
      cases hside : (parse_position_data raw).side with
      | LONG =>
        by_cases hle : m ≤ order_stop_price o
        · simp only [if_pos hle]
          constructor
          · intro h
            exact Option.noConfusion h
          · rintro ⟨hmn, -, hlt, -⟩
            obtain rfl : m = n := Option.some_inj.mp hmn
            exact absurd (hlt trivial) (not_lt.mpr hle)
        · simp only [if_neg hle]
          constructor
          · intro h
            obtain rfl : m = n := Option.some_inj.mp h
            exact ⟨rfl, hf, fun _ => lt_of_not_le hle, fun hs => Side.noConfusion hs⟩
          · rintro ⟨hmn, -, -, -⟩
            exact hmn
      | SHORT =>
        by_cases hle : order_stop_price o ≤ m
        · simp only [if_pos hle]
          constructor
          · intro h
            exact Option.noConfusion h
          · rintro ⟨hmn, -, -, hlt⟩
            obtain rfl : m = n := Option.some_inj.mp hmn
            exact absurd (hlt trivial) (not_lt.mpr hle)
        · simp only [if_neg hle]
          constructor
          · intro h
            obtain rfl : m = n := Option.some_inj.mp h
            exact ⟨rfl, hf, fun hs => Side.noConfusion hs, fun _ => lt_of_not_le hle⟩
          · rintro ⟨hmn, -, -, -⟩
            exact hmn

/-- C4 witness: the amended statement applied on a LONG with one live stop
order at 100 and evaluator target 100.1: a replace at 100.1 is issued. -/
theorem c4_witness :
    process_position_decision DEFAULT_TRAILING_CONFIG id sample_long_position
        [sample_stop_order] none = some 100.1 := by
  refine (c4_replace_decision_characterization DEFAULT_TRAILING_CONFIG id
    sample_long_position [sample_stop_order] none sample_stop_order (by rfl) 100.1).mpr
    ⟨?_, ?_, fun _ => ?_, fun hs => ?_⟩
  · norm_num [calculate_stop_loss_price, calculate_profit_percent, update_highest, in_level,
      py_upper, lock_target, DEFAULT_TRAILING_CONFIG, sample_long_position,
      sample_stop_order, parse_position_data, py_int, order_stop_price, max_def, min_def]
  · norm_num [order_stop_price, sample_stop_order]
  · norm_num [order_stop_price, sample_stop_order]
  · rw [show (parse_position_data sample_long_position).side = .LONG from rfl] at hs
    cases hs

/-- C2 counterexample: a REPLACE where the cancel of the lone existing stop
order fails (`cancel_fails` everywhere true) still attempts the place
command in the same cycle: each cancel sits in its own `try`/`except` whose
handler only logs, so a cancel failure does not abort the adjustment. -/
theorem c2_counterexample :
    Cmd.place "BTCUSDT" "SELL" 1 98 ∈
      adjust_stop_loss_trace (fun _ => true) "BTCUSDT" .LONG 1 98 id id
        [sample_stop_order] := by
  simp [adjust_stop_loss_trace]

/-- C2 (amended): during `_adjust_stop_loss`, every cancel is attempted and
the place command is then attempted unconditionally, as the final command —
for every pattern of cancel failures.  A cancel failure therefore does not
prevent placement in the same cycle (it can only be the placement itself,
or the earlier precision lookup, that aborts with an error). -/
theorem c2_place_attempted_after_any_cancel_failure
    (cancel_fails : ExchOrder → Bool) (symbol : String) (side : Side)
    (quantity stop_price : ℚ) (fmtP fmtQ : ℚ → ℚ) (open_orders : List ExchOrder) :
    (adjust_stop_loss_trace cancel_fails symbol side quantity stop_price fmtP fmtQ
        open_orders).getLast?
      = some (.place symbol (if side = .LONG then "SELL" else "BUY")
          (fmtQ quantity) (fmtP stop_price)) ∧
    (∀ o ∈ open_orders,
      cancel_cmd o ∈ adjust_stop_loss_trace cancel_fails symbol side quantity stop_price
        fmtP fmtQ open_orders) := by
  constructor
  · unfold adjust_stop_loss_trace
    rw [List.getLast?_concat]
  · intro o ho
    unfold adjust_stop_loss_trace
    exact List.mem_append_left _ (List.mem_map_of_mem cancel_cmd ho)

/-- C2 witness: the amended statement applied with the all-failing cancel
pattern and one existing stop order. -/
theorem c2_witness :
    (adjust_stop_loss_trace (fun _ => true) "BTCUSDT" .LONG 1 98 id id
        [sample_stop_order]).getLast? = some (.place "BTCUSDT" "SELL" 1 98) ∧
      cancel_cmd sample_stop_order ∈
        adjust_stop_loss_trace (fun _ => true) "BTCUSDT" .LONG 1 98 id id
          [sample_stop_order] :=
  ⟨(c2_place_attempted_after_any_cancel_failure (fun _ => true) "BTCUSDT" .LONG 1 98
      id id [sample_stop_order]).1,
   (c2_place_attempted_after_any_cancel_failure (fun _ => true) "BTCUSDT" .LONG 1 98
      id id [sample_stop_order]).2 sample_stop_order (List.mem_singleton.mpr rfl)⟩

/-- C7: at the failing input — a symbol with an open position whose live
orders are one protective stop order and one LIMIT entry order —
`_adjust_stop_loss` attempts to cancel the LIMIT order too: the cancel loop
iterates over *all* open orders of the symbol with no stop-type filter,
contradicting its own comment (取消所有现有止损单, "cancel all existing
stop-loss orders"). -/
theorem c7_limit_order_cancelled :
    Cmd.cancelOrder "BTCUSDT" "7" ∈
      adjust_stop_loss_trace (fun _ => false) "BTCUSDT" .LONG 1 100 id id
        [sample_stop_order, sample_limit_order] ∧
      is_stop_type sample_limit_order = false := by
  constructor
  · simp [adjust_stop_loss_trace, cancel_cmd, sample_limit_order, py_truthy_str, py_or_str]
  · rfl

/-- C10 witness: the theorem applied to the concrete flat record. -/
theorem c10_witness :
    (parse_position_data flat_position).side = .SHORT ∧
      (parse_position_data flat_position).quantity = 0 :=
  (c10_parse_position flat_position).2.2 rfl

end StopLossGuard
